import Mathlib

/-!
Shallow embedding of the Interview Session Orchestration Layer of the
InterViewDost browser client: the api helpers (`Frontend/src/lib/api.ts`),
the profile submission flow (`Frontend/src/pages/ProfilePage.tsx`), the
interview start flow (`Frontend/src/pages/InterviewPage.tsx`) and the
results aggregation effect (`ResultsPage`).  Network responses are passed
in explicitly as oracle data; component state is threaded explicitly.
-/

namespace InterViewDost

/-- A backend HTTP response as observed by the client: `ok` mirrors
`Response.ok` (2xx), `status` the numeric code, `body` the text body. -/
structure HttpResponse where
  ok : Bool
  status : Nat
  body : String
deriving Repr, DecidableEq

/-- Embedding of `apiPost` from `lib/api.ts`: on a non-ok response it throws the body
text when non-empty, otherwise the generic status message; on ok it
returns the parsed JSON (supplied here as `parsed`). -/
def apiPost {α : Type} (res : HttpResponse) (parsed : α) : Except String α :=
  if res.ok then Except.ok parsed
  else Except.error
    (if res.body = "" then "Request failed with " ++ toString res.status else res.body)

/-- Embedding of `apiGet` from `lib/api.ts`: same error fallback chain as `apiPost`. -/
def apiGet {α : Type} (res : HttpResponse) (parsed : α) : Except String α :=
  if res.ok then Except.ok parsed
  else Except.error
    (if res.body = "" then "Request failed with " ++ toString res.status else res.body)

/-- Spec-side formulation of the uniform error-surface contract (§4.2/§6):
raw response-body text when non-empty, otherwise a generic
"Request failed with status" message; compared against the inline
expressions of `apiPost` and `apiGet`. -/
def specFallbackMessage (res : HttpResponse) : String :=
  if res.body = "" then "Request failed with " ++ toString res.status else res.body

/-- The authenticated user held by the auth context (`state.user`). -/
structure User where
  name : String
  email : String
  role : Option String
deriving Repr, DecidableEq

/-- The auth-context state (`SessionStateStore`): current user plus the
latest enrichment artifact fields written by the profile page. -/
structure AuthState where
  user : Option User
  resumeSummary : Option String
  skills : Option (List String)
deriving Repr, DecidableEq

/- ### Delimited-field derivation (ProfilePage payload fields) -/

/-- ASCII whitespace trimmed by JavaScript `String.prototype.trim`. -/
def isJsWs (c : Char) : Bool :=
  c == ' ' || c == '\t' || c == '\n' || c == '\r' ||
  c == Char.ofNat 11 || c == Char.ofNat 12

/-- JS `.trim()`: drop whitespace from the front, then from the back. -/
def trimL (l : List Char) : List Char :=
  (l.dropWhile isJsWs).rdropWhile isJsWs

/-- The derivation `s.split(delim).map(t => t.trim()).filter(Boolean)`
used for `tech_stack` (comma) and the newline-split list fields. -/
def deriveEntries (c : Char) (l : List Char) : List (List Char) :=
  ((l.splitOn c).map trimL).filter (fun x => x ≠ [])

/-- String-level wrapper of `deriveEntries`, producing the payload lists. -/
def deriveField (c : Char) (s : String) : List String :=
  (deriveEntries c s.toList).map (fun l => String.mk l)

/-- Joining a list of entries back with the delimiter (`Array.join`). -/
def joinEntries (c : Char) (parts : List (List Char)) : List Char :=
  List.intercalate [c] parts

/-- JS `x || undefined` on a string: empty becomes absent. -/
def jsOrUndefined (s : String) : Option String :=
  if s = "" then none else some s

/-- JS `a || b` on strings: empty falls through to the alternative. -/
def jsOrStr (a b : String) : String :=
  if a = "" then b else a

/- ### ProfilePage (`handleSubmit`) -/

/-- An uploaded resume file, identified only by its name. -/
structure ResumeFile where
  name : String
deriving Repr, DecidableEq

/-- Local component state of `ProfilePage`. -/
structure ProfileForm where
  age : String
  targetRole : String
  targetCompany : String
  techStack : String
  workExperiences : String
  projects : String
  companiesWorked : String
  resumeText : String
  resumeFile : Option ResumeFile
  loading : Bool
  error : Option String
deriving Repr, DecidableEq

/-- Body of `POST /api/profile/enrich` built in `handleSubmit`.
The `age` field keeps the raw digits string (`Number(age)` coercion is
out of scope for the claims). -/
structure EnrichPayload where
  name : String
  email : String
  age : Option String
  tech_stack : List String
  work_experiences : List String
  projects : List String
  companies_worked : List String
  target_role : Option String
  target_company : Option String
  resume_text : Option String
deriving Repr, DecidableEq

/-- Parsed body of a successful enrich response. -/
structure ProfileEnrichResponse where
  user_id : Int
  resume_summary : String
  skills : List String
deriving Repr, DecidableEq

/-- First question of a started interview. -/
structure QuestionDto where
  question_id : Int
  text : String
deriving Repr, DecidableEq

/-- Parsed body of a successful `POST /api/interview/start` response. -/
structure InterviewStartResponse where
  interview_id : Int
  question : QuestionDto
  conversation_url : Option String
  tavus_error : Option String
deriving Repr, DecidableEq

/-- Body of `POST /api/interview/start` built in `handleStartInterview`. -/
structure StartBody where
  candidate_name : String
  candidate_email : String
  candidate_role : String
  candidate_resume_summary : Option String
  interviewer_id : Int
  interview_type : String
  skills : Option (List String)
deriving Repr, DecidableEq

/-- One network request issued by a handler, recorded in issue order. -/
inductive ApiCall where
  | uploadResume (file : ResumeFile)
  | enrich (payload : EnrichPayload)
  | start (body : StartBody)
  | getSummary (interviewId : String)
  | getFeedback (interviewId : String)
deriving Repr, DecidableEq

/-- Oracle data for one `handleSubmit` run: the upload response (with its
parsed `resume_text` field, when ok) and the enrich response. -/
structure SubmitEnv where
  uploadResp : HttpResponse
  uploadResumeText : Option String
  enrichResp : HttpResponse
  enrichParsed : ProfileEnrichResponse
deriving Repr, DecidableEq

/-- Result of one `handleSubmit` run: final local state, final auth-context
state, the network calls issued, and the navigation target if any. -/
structure SubmitOutcome where
  form : ProfileForm
  auth : AuthState
  calls : List ApiCall
  navigatedTo : Option String
deriving Repr, DecidableEq

/-- Error message set by the `ProfilePage` auth guard. -/
def notLoggedInProfileMsg : String := "You must be logged in with a valid user."

/-- Error message thrown when `POST /api/profile/upload_resume` is non-ok. -/
def extractionFailedMsg : String := "Failed to process resume PDF"

/-- The enrich payload built in `handleSubmit` from the form fields and the
canonical resume text (`finalResumeText`). -/
def buildEnrichPayload (u : User) (form : ProfileForm) (finalResumeText : String) :
    EnrichPayload :=
  { name := u.name
    email := u.email
    age := if form.age = "" then none else some form.age
    tech_stack := deriveField ',' form.techStack
    work_experiences := deriveField '\n' form.workExperiences
    projects := deriveField '\n' form.projects
    companies_worked := deriveField '\n' form.companiesWorked
    target_role := jsOrUndefined form.targetRole
    target_company := jsOrUndefined form.targetCompany
    resume_text := jsOrUndefined finalResumeText }

/-- The tail of `handleSubmit` after the extraction branch: build the
payload, call `apiPost /api/profile/enrich`, and on success write the
artifact into the auth state and navigate to `/interview`. -/
def finishSubmit (auth : AuthState) (u : User) (form2 : ProfileForm)
    (finalResumeText : String) (env : SubmitEnv) (callsSoFar : List ApiCall) :
    SubmitOutcome :=
  let payload := buildEnrichPayload u form2 finalResumeText
  match apiPost env.enrichResp env.enrichParsed with
  | Except.ok data =>
      { form := { form2 with loading := false }
        auth := { auth with resumeSummary := some data.resume_summary
                            skills := some data.skills }
        calls := callsSoFar ++ [ApiCall.enrich payload]
        navigatedTo := some "/interview" }
  | Except.error m =>
      { form := { form2 with error := some m, loading := false }
        auth := auth
        calls := callsSoFar ++ [ApiCall.enrich payload]
        navigatedTo := none }

/-- Model of `ProfilePage.handleSubmit`: auth guard, optional resume-PDF extraction
(only when a file is present and the typed text is empty), then the
enrich call. -/
def handleSubmit (auth : AuthState) (form : ProfileForm) (env : SubmitEnv) :
    SubmitOutcome :=
  match auth.user with
  | none =>
      { form := { form with error := some notLoggedInProfileMsg }
        auth := auth, calls := [], navigatedTo := none }
  | some u =>
      if u.email = "" ∨ u.name = "" then
        { form := { form with error := some notLoggedInProfileMsg }
          auth := auth, calls := [], navigatedTo := none }
      else
        let form1 := { form with loading := true, error := none }
        match form.resumeFile with
        | some f =>
            if form.resumeText = "" then
              if env.uploadResp.ok then
                let finalText := env.uploadResumeText.getD ""
                let form2 := { form1 with resumeText := finalText }
                finishSubmit auth u form2 finalText env [ApiCall.uploadResume f]
              else
                { form := { form1 with error := some extractionFailedMsg
                                       loading := false }
                  auth := auth
                  calls := [ApiCall.uploadResume f]
                  navigatedTo := none }
            else
              finishSubmit auth u form1 form.resumeText env []
        | none =>
            finishSubmit auth u form1 form.resumeText env []

/- ### InterviewPage (`handleStartInterview` and rendering) -/

/-- Local component state of `InterviewPage`. -/
structure InterviewState where
  interviewId : Option Int
  question : Option QuestionDto
  conversationUrl : Option String
  targetRole : String
  loading : Bool
  error : Option String
  tavusError : Option String
deriving Repr, DecidableEq

/-- Error message set by the `InterviewPage` auth guard. -/
def notLoggedInInterviewMsg : String :=
  "You must be logged in and have a valid profile."

/-- Oracle data for one `handleStartInterview` run. -/
structure StartEnv where
  startResp : HttpResponse
  startParsed : InterviewStartResponse
deriving Repr, DecidableEq

/-- Result of one `handleStartInterview` run. -/
structure StartOutcome where
  state : InterviewState
  calls : List ApiCall
deriving Repr, DecidableEq

/-- The start body built in `handleStartInterview`; the role falls back
through `targetRole || state.user.role || "candidate"`. -/
def buildStartBody (u : User) (st : InterviewState) (auth : AuthState) : StartBody :=
  { candidate_name := u.name
    candidate_email := u.email
    candidate_role := jsOrStr st.targetRole (jsOrStr (u.role.getD "") "candidate")
    candidate_resume_summary := auth.resumeSummary
    interviewer_id := 1
    interview_type := jsOrStr st.targetRole (jsOrStr (u.role.getD "") "candidate")
    skills := auth.skills }

/-- Model of `InterviewPage.handleStartInterview`: auth guard, reset of `error`
and `tavusError`, the start call, and either the session fields or the
error message. -/
def handleStartInterview (auth : AuthState) (st : InterviewState) (env : StartEnv) :
    StartOutcome :=
  match auth.user with
  | none => { state := { st with error := some notLoggedInInterviewMsg }, calls := [] }
  | some u =>
      if u.email = "" ∨ u.name = "" then
        { state := { st with error := some notLoggedInInterviewMsg }, calls := [] }
      else
        let st1 := { st with loading := true, error := none, tavusError := none }
        let body := buildStartBody u st auth
        match apiPost env.startResp env.startParsed with
        | Except.ok data =>
            { state := { st1 with
                interviewId := some data.interview_id
                question := some data.question
                conversationUrl := data.conversation_url
                tavusError := data.tavus_error
                loading := false }
              calls := [ApiCall.start body] }
        | Except.error m =>
            { state := { st1 with error := some m, loading := false }
              calls := [ApiCall.start body] }

/-- JS truthiness of an optional number: `null`, `0` are falsy. -/
def jsTruthyInt : Option Int → Bool
  | none => false
  | some n => n != 0

/-- JS truthiness of an optional string: `null`, `""` are falsy. -/
def jsTruthyOptStr : Option String → Bool
  | none => false
  | some s => s != ""

/-- The `question && ...` block of `InterviewPage` renders the current
question exactly when `question` is set (an object is always truthy). -/
def questionBlockRendered (st : InterviewState) : Bool :=
  st.question.isSome

/-- The `interviewId && <button onClick=navigate(/results/id)>` block:
the navigation target offered by the view, `none` when the block is not
rendered (numeric truthiness: `0` is falsy). -/
def viewResultsTarget (st : InterviewState) : Option Int :=
  match st.interviewId with
  | none => none
  | some i => if i != 0 then some i else none

/- ### ResultsPage (load effect with `Promise.all`) -/

/-- One row of the scoring summary. -/
structure InterviewSummaryItem where
  question : String
  answer : Option String
  relevance_score : Option Int
  confidence_level : Option Int
deriving Repr, DecidableEq

/-- Parsed body of `GET /api/interview/{id}/summary`. -/
structure InterviewSummaryResponse where
  interview_id : Int
  overall_score : Option Int
  items : List InterviewSummaryItem
  completed_at : Option String
deriving Repr, DecidableEq

/-- Parsed body of `GET /api/interview/{id}/feedback`. -/
structure FeedbackResponse where
  feedback_id : Int
  interview_id : Int
  comments : Option String
  suggestions : Option String
  report_url : Option String
deriving Repr, DecidableEq

/-- Local component state of `ResultsPage`. -/
structure ResultsState where
  summary : Option InterviewSummaryResponse
  feedback : Option FeedbackResponse
  loading : Bool
  error : Option String
deriving Repr, DecidableEq

/-- Initial `ResultsPage` state at mount. -/
def initialResultsState : ResultsState :=
  { summary := none, feedback := none, loading := false, error := none }

/-- Model of `Promise.all` over two promises: ok only when both are ok; rejects
with the reason of the promise that rejects first.  When both reject,
`secondSettlesFirst` says whether the feedback promise settled first. -/
def promiseAll2 {α β : Type} (a : Except String α) (b : Except String β)
    (secondSettlesFirst : Bool) : Except String (α × β) :=
  match a, b with
  | Except.ok x, Except.ok y => Except.ok (x, y)
  | Except.error m, Except.ok _ => Except.error m
  | Except.ok _, Except.error m => Except.error m
  | Except.error m₁, Except.error m₂ =>
      Except.error (if secondSettlesFirst then m₂ else m₁)

/-- Oracle data for one `ResultsPage` load effect. -/
structure ResultsEnv where
  summaryResp : HttpResponse
  summaryParsed : InterviewSummaryResponse
  feedbackResp : HttpResponse
  feedbackParsed : FeedbackResponse
  secondSettlesFirst : Bool
deriving Repr, DecidableEq

/-- The `ResultsPage` load effect: skipped for a falsy route param;
otherwise both fetches are issued together and joined with
`Promise.all`; on success both states are set, on rejection only the
error is set. -/
def resultsLoadEffect (interviewId : Option String) (st : ResultsState)
    (env : ResultsEnv) : ResultsState × List ApiCall :=
  match interviewId with
  | none => (st, [])
  | some id =>
      if id = "" then (st, [])
      else
        let st1 := { st with loading := true, error := none }
        let calls := [ApiCall.getSummary id, ApiCall.getFeedback id]
        match promiseAll2 (apiGet env.summaryResp env.summaryParsed)
            (apiGet env.feedbackResp env.feedbackParsed) env.secondSettlesFirst with
        | Except.ok sf =>
            ({ st1 with summary := some sf.1, feedback := some sf.2
                        loading := false }, calls)
        | Except.error m =>
            ({ st1 with error := some m, loading := false }, calls)

/-- The `summary && ...` block of `ResultsPage` renders the summary
exactly when `summary` is set. -/
def summaryBlockRendered (st : ResultsState) : Bool :=
  st.summary.isSome

/-- The error message of a settled promise, `none` on success. -/
def exceptError {α : Type} : Except String α → Option String
  | Except.error m => some m
  | Except.ok _ => none

open List


lemma mem_of_mem_trimL {a : Char} {l : List Char} (h : a ∈ trimL l) : a ∈ l := by
  have h1 : a ∈ (l.dropWhile isJsWs).reverse.dropWhile isJsWs := by
    simpa [trimL, List.rdropWhile] using h
  have h2 : a ∈ (l.dropWhile isJsWs).reverse :=
    ((List.dropWhile_suffix _).sublist).subset h1
  have h3 : a ∈ l.dropWhile isJsWs := by simpa using h2
  exact ((List.dropWhile_suffix _).sublist).subset h3

lemma dropWhile_trimL (l : List Char) : (trimL l).dropWhile isJsWs = trimL l := by
  obtain ⟨t, ht⟩ := rdropWhile_prefix isJsWs (l.dropWhile isJsWs)
  cases hw : trimL l with
  | nil => simp
  | cons a w =>
    have hm : l.dropWhile isJsWs = a :: (w ++ t) := by
      rw [← ht]
      show trimL l ++ t = _
      rw [hw]; rfl
    have key : ∀ (m : List Char), l.dropWhile isJsWs = m → ∀ (hne2 : m ≠ []),
        isJsWs (m.head hne2) = false := by
      intro m hm2 hne2
      subst hm2
      simpa using List.head_dropWhile_not isJsWs l hne2
    have ha : isJsWs a = false := by
      simpa using key (a :: (w ++ t)) hm (by simp)
    rw [List.dropWhile_cons, ha]
    simp

lemma trimL_idem (l : List Char) : trimL (trimL l) = trimL l := by
  show ((trimL l).dropWhile isJsWs).rdropWhile isJsWs = trimL l
  rw [dropWhile_trimL]
  show ((l.dropWhile isJsWs).rdropWhile isJsWs).rdropWhile isJsWs = trimL l
  rw [List.rdropWhile_idempotent]
  rfl

lemma splitOnP_mem_not {α : Type} {p : α → Bool} :
    ∀ (xs l : List α), l ∈ xs.splitOnP p → ∀ a ∈ l, p a = false := by
  intro xs
  induction xs with
  | nil =>
      intro l hl a ha
      rw [List.splitOnP_nil] at hl
      simp only [List.mem_singleton] at hl
      subst hl; simp at ha
  | cons x xs ih =>
      intro l hl a ha
      rw [List.splitOnP_cons] at hl
      by_cases hx : p x
      · rw [if_pos hx] at hl
        rcases List.mem_cons.mp hl with h1 | h2
        · subst h1; simp at ha
        · exact ih l h2 a ha
      · rw [if_neg hx] at hl
        cases hsp : xs.splitOnP p with
        | nil => exact absurd hsp (List.splitOnP_ne_nil p xs)
        | cons h t =>
          rw [hsp, List.modifyHead_cons] at hl
          rcases List.mem_cons.mp hl with h1 | h2
          · subst h1
            rcases List.mem_cons.mp ha with rfl | ha2
            · simpa using hx
            · exact ih h (by rw [hsp]; exact List.mem_cons_self h t) a ha2
          · exact ih l (by rw [hsp]; exact List.mem_cons_of_mem h h2) a ha

lemma deriveEntries_mem_spec {c : Char} {s x : List Char}
    (h : x ∈ deriveEntries c s) : trimL x = x ∧ x ≠ [] ∧ c ∉ x := by
  unfold deriveEntries at h
  rw [List.mem_filter] at h
  obtain ⟨hmap, hne⟩ := h
  rw [List.mem_map] at hmap
  obtain ⟨y, hy, rfl⟩ := hmap
  have hcy : c ∉ y := by
    intro hcy
    have hsp : y ∈ s.splitOnP (· == c) := by simpa [List.splitOn] using hy
    have := splitOnP_mem_not s y hsp c hcy
    simp at this
  exact ⟨trimL_idem y, by simpa using hne, fun hcx => hcy (mem_of_mem_trimL hcx)⟩

lemma deriveEntries_singleton {c : Char} {x : List Char} (hx : trimL x = x)
    (hne : x ≠ []) (hc : c ∉ x) : deriveEntries c x = [x] := by
  unfold deriveEntries
  have hsplit : x.splitOn c = [x] := by
    show x.splitOnP (· == c) = [x]
    apply List.splitOnP_eq_single
    intro a ha
    simp only [beq_iff_eq]
    intro hac; subst hac; exact hc ha
  rw [hsplit]
  simp [hx, hne]

lemma deriveEntries_join (c : Char) (parts : List (List Char))
    (hmem : ∀ x ∈ parts, trimL x = x ∧ x ≠ [] ∧ c ∉ x) :
    deriveEntries c (joinEntries c parts) = parts := by
  cases hp : parts with
  | nil => simp [joinEntries, List.intercalate, deriveEntries, trimL, List.rdropWhile]
  | cons a t =>
    have hne : parts ≠ [] := by rw [hp]; simp
    rw [← hp]
    unfold deriveEntries joinEntries
    rw [List.splitOn_intercalate parts c (fun l hl => (hmem l hl).2.2) hne]
    rw [List.map_congr_left (fun x hx => (hmem x hx).1), List.map_id']
    refine List.filter_eq_self.mpr ?_
    intro a ha
    simpa using (hmem a ha).2.1


/-- C1: when either of the two concurrent results fetches fails, the whole
load fails: summary and feedback keep their prior values (none at mount,
so no incomplete view is stored or rendered), loading ends false, and the
single surfaced error is the message of an observed failure. -/
theorem c1_results_all_or_nothing (id : String) (st : ResultsState) (env : ResultsEnv)
    (hid : id ≠ "")
    (hfail : env.summaryResp.ok = false ∨ env.feedbackResp.ok = false) :
    (resultsLoadEffect (some id) st env).1.summary = st.summary ∧
    (resultsLoadEffect (some id) st env).1.feedback = st.feedback ∧
    (resultsLoadEffect (some id) st env).1.loading = false ∧
    ((resultsLoadEffect (some id) st env).1.error).isSome = true ∧
    ((resultsLoadEffect (some id) st env).1.error
        = exceptError (apiGet env.summaryResp env.summaryParsed) ∨
      (resultsLoadEffect (some id) st env).1.error
        = exceptError (apiGet env.feedbackResp env.feedbackParsed)) ∧
    (st.summary = none →
      summaryBlockRendered (resultsLoadEffect (some id) st env).1 = false) := by
  cases hs : env.summaryResp.ok with
  | false =>
      cases hf : env.feedbackResp.ok with
      | false =>
          cases hb : env.secondSettlesFirst with
          | false =>
              refine ⟨?_, ?_, ?_, ?_, Or.inl ?_, ?_⟩ <;>
                simp [resultsLoadEffect, hid, apiGet, promiseAll2, hs, hf, hb,
                  exceptError, summaryBlockRendered]
          | true =>
              refine ⟨?_, ?_, ?_, ?_, Or.inr ?_, ?_⟩ <;>
                simp [resultsLoadEffect, hid, apiGet, promiseAll2, hs, hf, hb,
                  exceptError, summaryBlockRendered]
      | true =>
          refine ⟨?_, ?_, ?_, ?_, Or.inl ?_, ?_⟩ <;>
            simp [resultsLoadEffect, hid, apiGet, promiseAll2, hs, hf,
              exceptError, summaryBlockRendered]
  | true =>
      cases hf : env.feedbackResp.ok with
      | false =>
          refine ⟨?_, ?_, ?_, ?_, Or.inr ?_, ?_⟩ <;>
            simp [resultsLoadEffect, hid, apiGet, promiseAll2, hs, hf,
              exceptError, summaryBlockRendered]
      | true =>
          rcases hfail with h | h
          · rw [hs] at h; cases h
          · rw [hf] at h; cases h

/-- C1 witness: summary succeeds, feedback returns HTTP 500 with body
"HTTP 500"; the aggregate fails with that single message and no summary
is stored. -/
theorem c1_witness :
    (resultsLoadEffect (some "42") initialResultsState
      { summaryResp := { ok := true, status := 200, body := "" }
        summaryParsed := { interview_id := 42, overall_score := some 80, items := [],
                           completed_at := none }
        feedbackResp := { ok := false, status := 500, body := "HTTP 500" }
        feedbackParsed := { feedback_id := 0, interview_id := 42, comments := none,
                            suggestions := none, report_url := none }
        secondSettlesFirst := false }).1.summary = initialResultsState.summary ∧
    (resultsLoadEffect (some "42") initialResultsState
      { summaryResp := { ok := true, status := 200, body := "" }
        summaryParsed := { interview_id := 42, overall_score := some 80, items := [],
                           completed_at := none }
        feedbackResp := { ok := false, status := 500, body := "HTTP 500" }
        feedbackParsed := { feedback_id := 0, interview_id := 42, comments := none,
                            suggestions := none, report_url := none }
        secondSettlesFirst := false }).1.feedback = initialResultsState.feedback ∧
    (resultsLoadEffect (some "42") initialResultsState
      { summaryResp := { ok := true, status := 200, body := "" }
        summaryParsed := { interview_id := 42, overall_score := some 80, items := [],
                           completed_at := none }
        feedbackResp := { ok := false, status := 500, body := "HTTP 500" }
        feedbackParsed := { feedback_id := 0, interview_id := 42, comments := none,
                            suggestions := none, report_url := none }
        secondSettlesFirst := false }).1.loading = false ∧
    ((resultsLoadEffect (some "42") initialResultsState
      { summaryResp := { ok := true, status := 200, body := "" }
        summaryParsed := { interview_id := 42, overall_score := some 80, items := [],
                           completed_at := none }
        feedbackResp := { ok := false, status := 500, body := "HTTP 500" }
        feedbackParsed := { feedback_id := 0, interview_id := 42, comments := none,
                            suggestions := none, report_url := none }
        secondSettlesFirst := false }).1.error).isSome = true ∧
    summaryBlockRendered (resultsLoadEffect (some "42") initialResultsState
      { summaryResp := { ok := true, status := 200, body := "" }
        summaryParsed := { interview_id := 42, overall_score := some 80, items := [],
                           completed_at := none }
        feedbackResp := { ok := false, status := 500, body := "HTTP 500" }
        feedbackParsed := { feedback_id := 0, interview_id := 42, comments := none,
                            suggestions := none, report_url := none }
        secondSettlesFirst := false }).1 = false := by
  have h := c1_results_all_or_nothing "42" initialResultsState
    { summaryResp := { ok := true, status := 200, body := "" }
      summaryParsed := { interview_id := 42, overall_score := some 80, items := [],
                         completed_at := none }
      feedbackResp := { ok := false, status := 500, body := "HTTP 500" }
      feedbackParsed := { feedback_id := 0, interview_id := 42, comments := none,
                          suggestions := none, report_url := none }
      secondSettlesFirst := false }
    (by decide) (Or.inr rfl)
  exact ⟨h.1, h.2.1, h.2.2.1, h.2.2.2.1, h.2.2.2.2.2 rfl⟩


/-- C2 counterexample: a start response that parses successfully with
`tavus_error` set, `conversation_url` null and `interview_id = 0` yields
a state whose question is exposed, but the `interviewId && ...` block
does not render the results-navigation button (JS numeric truthiness:
`0` is falsy), so navigation to the results page is not permitted. -/
theorem c2_counterexample :
    (handleStartInterview
      { user := some { name := "A", email := "a@x.com", role := none }
        resumeSummary := some "S", skills := some ["Go"] }
      { interviewId := none, question := none, conversationUrl := none
        targetRole := "", loading := false, error := none, tavusError := none }
      { startResp := { ok := true, status := 200, body := "" }
        startParsed := { interview_id := 0
                         question := { question_id := 1, text := "Q1" }
                         conversation_url := none
                         tavus_error := some "provider down" } }).state
      = { interviewId := some 0
          question := some { question_id := 1, text := "Q1" }
          conversationUrl := none
          targetRole := "", loading := false, error := none
          tavusError := some "provider down" } ∧
    viewResultsTarget
      { interviewId := some 0
        question := some { question_id := 1, text := "Q1" }
        conversationUrl := none
        targetRole := "", loading := false, error := none
        tavusError := some "provider down" } = none := by
  decide

/-- C2 (amended): for every start response that parses successfully with
`tavus_error` set, `conversation_url` null and a JS-truthy (nonzero)
`interview_id`, the resulting state still exposes and renders the
question, and the results-navigation button targets the returned session
identifier. -/
theorem c2_channel_failed_session_usable
    (auth : AuthState) (u : User) (st : InterviewState) (env : StartEnv)
    (hu : auth.user = some u) (he : u.email ≠ "") (hn : u.name ≠ "")
    (hok : env.startResp.ok = true)
    (hurl : env.startParsed.conversation_url = none)
    (herr : (env.startParsed.tavus_error).isSome = true)
    (hid : env.startParsed.interview_id ≠ 0) :
    (handleStartInterview auth st env).state.question = some env.startParsed.question ∧
    questionBlockRendered (handleStartInterview auth st env).state = true ∧
    (handleStartInterview auth st env).state.tavusError = env.startParsed.tavus_error ∧
    viewResultsTarget (handleStartInterview auth st env).state
      = some env.startParsed.interview_id := by
  refine ⟨?_, ?_, ?_, ?_⟩ <;>
    simp [handleStartInterview, hu, he, hn, apiPost, hok,
      questionBlockRendered, viewResultsTarget, hid]

/-- C2 witness: the end-to-end scenario of §8 with `interview_id = 42`. -/
theorem c2_witness :
    (handleStartInterview
      { user := some { name := "A", email := "a@x.com", role := none }
        resumeSummary := some "S", skills := some ["Go"] }
      { interviewId := none, question := none, conversationUrl := none
        targetRole := "", loading := false, error := none, tavusError := none }
      { startResp := { ok := true, status := 200, body := "" }
        startParsed := { interview_id := 42
                         question := { question_id := 1, text := "Q1" }
                         conversation_url := none
                         tavus_error := some "provider down" } }).state.question
      = some { question_id := 1, text := "Q1" } ∧
    viewResultsTarget
      (handleStartInterview
        { user := some { name := "A", email := "a@x.com", role := none }
          resumeSummary := some "S", skills := some ["Go"] }
        { interviewId := none, question := none, conversationUrl := none
          targetRole := "", loading := false, error := none, tavusError := none }
        { startResp := { ok := true, status := 200, body := "" }
          startParsed := { interview_id := 42
                           question := { question_id := 1, text := "Q1" }
                           conversation_url := none
                           tavus_error := some "provider down" } }).state
      = some 42 := by
  have h := c2_channel_failed_session_usable
    { user := some { name := "A", email := "a@x.com", role := none }
      resumeSummary := some "S", skills := some ["Go"] }
    { name := "A", email := "a@x.com", role := none }
    { interviewId := none, question := none, conversationUrl := none
      targetRole := "", loading := false, error := none, tavusError := none }
    { startResp := { ok := true, status := 200, body := "" }
      startParsed := { interview_id := 42
                       question := { question_id := 1, text := "Q1" }
                       conversation_url := none
                       tavus_error := some "provider down" } }
    rfl (by decide) (by decide) rfl rfl rfl (by decide)
  exact ⟨h.1, h.2.2.2⟩

/-- C3: invoking submit or start without an authenticated identity with a
non-empty name and email fails fast: the only change is the error
message, and zero network calls are issued. -/
theorem c3_not_authenticated_fails_fast
    (auth : AuthState) (form : ProfileForm) (env : SubmitEnv)
    (st : InterviewState) (senv : StartEnv)
    (h : auth.user = none ∨ ∃ u, auth.user = some u ∧ (u.email = "" ∨ u.name = "")) :
    handleSubmit auth form env =
      { form := { form with error := some notLoggedInProfileMsg }
        auth := auth, calls := [], navigatedTo := none } ∧
    handleStartInterview auth st senv =
      { state := { st with error := some notLoggedInInterviewMsg }, calls := [] } := by
  rcases h with h | ⟨u, hu, hbad⟩
  · constructor <;> simp [handleSubmit, handleStartInterview, h]
  · constructor <;>
      · simp only [handleSubmit, handleStartInterview, hu]
        rw [if_pos hbad]

/-- C3 witness: a logged-out invocation (user `none`) of both handlers. -/
theorem c3_witness :
    handleSubmit
      { user := none, resumeSummary := none, skills := none }
      { age := "", targetRole := "", targetCompany := "", techStack := ""
        workExperiences := "", projects := "", companiesWorked := ""
        resumeText := "", resumeFile := none, loading := false, error := none }
      { uploadResp := { ok := true, status := 200, body := "" }
        uploadResumeText := none
        enrichResp := { ok := true, status := 200, body := "" }
        enrichParsed := { user_id := 1, resume_summary := "S", skills := ["Go"] } } =
      { form := { age := "", targetRole := "", targetCompany := "", techStack := ""
                  workExperiences := "", projects := "", companiesWorked := ""
                  resumeText := "", resumeFile := none, loading := false
                  error := some notLoggedInProfileMsg }
        auth := { user := none, resumeSummary := none, skills := none }
        calls := [], navigatedTo := none } ∧
    handleStartInterview
      { user := none, resumeSummary := none, skills := none }
      { interviewId := none, question := none, conversationUrl := none
        targetRole := "", loading := false, error := none, tavusError := none }
      { startResp := { ok := true, status := 200, body := "" }
        startParsed := { interview_id := 1
                         question := { question_id := 1, text := "Q1" }
                         conversation_url := none, tavus_error := none } } =
      { state := { interviewId := none, question := none, conversationUrl := none
                   targetRole := "", loading := false
                   error := some notLoggedInInterviewMsg, tavusError := none }
        calls := [] } :=
  c3_not_authenticated_fails_fast
    { user := none, resumeSummary := none, skills := none }
    { age := "", targetRole := "", targetCompany := "", techStack := ""
      workExperiences := "", projects := "", companiesWorked := ""
      resumeText := "", resumeFile := none, loading := false, error := none }
    { uploadResp := { ok := true, status := 200, body := "" }
      uploadResumeText := none
      enrichResp := { ok := true, status := 200, body := "" }
      enrichParsed := { user_id := 1, resume_summary := "S", skills := ["Go"] } }
    { interviewId := none, question := none, conversationUrl := none
      targetRole := "", loading := false, error := none, tavusError := none }
    { startResp := { ok := true, status := 200, body := "" }
      startParsed := { interview_id := 1
                       question := { question_id := 1, text := "Q1" }
                       conversation_url := none, tavus_error := none } }
    (Or.inl rfl)


/-- C4 counterexample: a non-2xx `upload_resume` response with the
non-empty body "boom" is surfaced as the fixed message
"Failed to process resume PDF", not as the raw body text — the fallback
chain is not uniform across the resume-extraction endpoint. -/
theorem c4_counterexample :
    (handleSubmit
      { user := some { name := "A", email := "a@x.com", role := none }
        resumeSummary := none, skills := none }
      { age := "", targetRole := "", targetCompany := "", techStack := ""
        workExperiences := "", projects := "", companiesWorked := ""
        resumeText := "", resumeFile := some { name := "r.pdf" }
        loading := false, error := none }
      { uploadResp := { ok := false, status := 500, body := "boom" }
        uploadResumeText := none
        enrichResp := { ok := true, status := 200, body := "" }
        enrichParsed := { user_id := 1, resume_summary := "S", skills := ["Go"] } }).form.error
      = some extractionFailedMsg ∧
    (handleSubmit
      { user := some { name := "A", email := "a@x.com", role := none }
        resumeSummary := none, skills := none }
      { age := "", targetRole := "", targetCompany := "", techStack := ""
        workExperiences := "", projects := "", companiesWorked := ""
        resumeText := "", resumeFile := some { name := "r.pdf" }
        loading := false, error := none }
      { uploadResp := { ok := false, status := 500, body := "boom" }
        uploadResumeText := none
        enrichResp := { ok := true, status := 200, body := "" }
        enrichParsed := { user_id := 1, resume_summary := "S", skills := ["Go"] } }).form.error
      ≠ some "boom" := by
  decide

/-- C4 (amended): the body-text-else-generic-status fallback chain is
uniform across the four JSON endpoints (enrich, start, summary,
feedback, all served by `apiPost`/`apiGet`), while the resume-extraction
endpoint deviates: its non-2xx responses surface the fixed message
"Failed to process resume PDF" regardless of the body. -/
theorem c4_error_fallback_chain (resp : HttpResponse) (hnok : resp.ok = false) :
    (∀ (α : Type) (parsed : α),
      apiPost resp parsed = Except.error (specFallbackMessage resp) ∧
      apiGet resp parsed = Except.error (specFallbackMessage resp)) ∧
    (∀ (auth : AuthState) (u : User) (form : ProfileForm) (env : SubmitEnv),
      auth.user = some u → u.email ≠ "" → u.name ≠ "" → form.resumeFile = none →
      env.enrichResp = resp →
      (handleSubmit auth form env).form.error = some (specFallbackMessage resp)) ∧
    (∀ (auth : AuthState) (u : User) (st : InterviewState) (env : StartEnv),
      auth.user = some u → u.email ≠ "" → u.name ≠ "" → env.startResp = resp →
      (handleStartInterview auth st env).state.error = some (specFallbackMessage resp)) ∧
    (∀ (id : String) (st : ResultsState) (env : ResultsEnv),
      id ≠ "" → env.summaryResp = resp → env.feedbackResp.ok = true →
      (resultsLoadEffect (some id) st env).1.error = some (specFallbackMessage resp)) ∧
    (∀ (auth : AuthState) (u : User) (form : ProfileForm) (env : SubmitEnv)
        (f : ResumeFile),
      auth.user = some u → u.email ≠ "" → u.name ≠ "" → form.resumeFile = some f →
      form.resumeText = "" → env.uploadResp = resp →
      (handleSubmit auth form env).form.error = some extractionFailedMsg) := by
  refine ⟨?_, ?_, ?_, ?_, ?_⟩
  · intro α parsed
    constructor <;> simp [apiPost, apiGet, specFallbackMessage, hnok]
  · intro auth u form env hu he hn hfile henv
    subst henv
    simp [handleSubmit, finishSubmit, apiPost, specFallbackMessage, hu, he, hn,
      hfile, hnok]
  · intro auth u st env hu he hn henv
    subst henv
    simp [handleStartInterview, apiPost, specFallbackMessage, hu, he, hn, hnok]
  · intro id st env hid henv hfb
    subst henv
    simp [resultsLoadEffect, hid, apiGet, promiseAll2, specFallbackMessage, hnok, hfb]
  · intro auth u form env f hu he hn hfile ht henv
    subst henv
    simp [handleSubmit, hu, he, hn, hfile, ht, hnok]

/-- C4 witness: the fallback chain at a bodyless 500 for an enrich call
and at a body-carrying 404 for a summary call. -/
theorem c4_witness :
    apiPost { ok := false, status := 500, body := "" } (0 : Nat)
      = Except.error "Request failed with 500" ∧
    apiGet { ok := false, status := 404, body := "not found" } (0 : Nat)
      = Except.error "not found" := by
  have h1 := (c4_error_fallback_chain { ok := false, status := 500, body := "" } rfl).1
    Nat 0
  have h2 := (c4_error_fallback_chain { ok := false, status := 404, body := "not found" }
    rfl).1 Nat 0
  exact ⟨h1.1, h2.2⟩


/-- C5: the delimited-field derivation (split on the delimiter, trim each
piece, discard empty pieces) is a total function and is idempotent: it
maps each element of its own output to that singleton entry, and
re-deriving from the joined output reproduces the same list. -/
theorem c5_derivation_idempotent (c : Char) (s x : List Char) :
    (x ∈ deriveEntries c s → deriveEntries c x = [x]) ∧
    deriveEntries c (joinEntries c (deriveEntries c s)) = deriveEntries c s := by
  constructor
  · intro hx
    obtain ⟨h1, h2, h3⟩ := deriveEntries_mem_spec hx
    exact deriveEntries_singleton h1 h2 h3
  · exact deriveEntries_join c _ (fun y hy => deriveEntries_mem_spec hy)

/-- C5 witness: concrete instance on the tech-stack input "Go, Rust". -/
theorem c5_witness :
    deriveEntries ',' "Go".toList = ["Go".toList] ∧
    deriveEntries ',' (joinEntries ',' (deriveEntries ',' "Go, Rust".toList))
      = deriveEntries ',' "Go, Rust".toList :=
  ⟨(c5_derivation_idempotent ',' "Go, Rust".toList "Go".toList).1 (by decide),
   (c5_derivation_idempotent ',' "Go, Rust".toList "Go".toList).2⟩


/-- C6: when the typed resume text is non-empty the submit issues exactly
one network call — the enrich call — whose payload carries the typed
text verbatim, even when a file is present; and an extraction call is in
the trace exactly when a file is present and the typed text is empty. -/
theorem c6_typed_text_precedence
    (auth : AuthState) (u : User) (form : ProfileForm) (env : SubmitEnv)
    (hu : auth.user = some u) (he : u.email ≠ "") (hn : u.name ≠ "") :
    (form.resumeText ≠ "" →
      ∃ p, (handleSubmit auth form env).calls = [ApiCall.enrich p] ∧
        p.resume_text = some form.resumeText) ∧
    ((∃ f, ApiCall.uploadResume f ∈ (handleSubmit auth form env).calls) ↔
      (form.resumeFile.isSome = true ∧ form.resumeText = "")) := by
  constructor
  · intro ht
    refine ⟨buildEnrichPayload u { form with loading := true, error := none }
      form.resumeText, ?_, ?_⟩
    · cases hfile : form.resumeFile with
      | none =>
          cases hok : env.enrichResp.ok with
          | false => simp [handleSubmit, finishSubmit, apiPost, hu, he, hn, hfile, hok]
          | true => simp [handleSubmit, finishSubmit, apiPost, hu, he, hn, hfile, hok]
      | some f =>
          cases hok : env.enrichResp.ok with
          | false => simp [handleSubmit, finishSubmit, apiPost, hu, he, hn, hfile, ht, hok]
          | true => simp [handleSubmit, finishSubmit, apiPost, hu, he, hn, hfile, ht, hok]
    · simp [buildEnrichPayload, jsOrUndefined, ht]
  · cases hfile : form.resumeFile with
    | none =>
        cases hok : env.enrichResp.ok with
        | false => simp [handleSubmit, finishSubmit, apiPost, hu, he, hn, hfile, hok]
        | true => simp [handleSubmit, finishSubmit, apiPost, hu, he, hn, hfile, hok]
    | some f =>
        by_cases ht : form.resumeText = ""
        · cases hup : env.uploadResp.ok with
          | false =>
              simp [handleSubmit, finishSubmit, apiPost, hu, he, hn, hfile, ht, hup]
          | true =>
              cases hok : env.enrichResp.ok with
              | false =>
                  simp [handleSubmit, finishSubmit, apiPost, hu, he, hn, hfile, ht,
                    hup, hok]
              | true =>
                  simp [handleSubmit, finishSubmit, apiPost, hu, he, hn, hfile, ht,
                    hup, hok]
        · cases hok : env.enrichResp.ok with
          | false => simp [handleSubmit, finishSubmit, apiPost, hu, he, hn, hfile, ht, hok]
          | true => simp [handleSubmit, finishSubmit, apiPost, hu, he, hn, hfile, ht, hok]

/-- C6 witness: typed text "my resume" with a file present: the only call
is the enrich call carrying the typed text; no extraction call occurs. -/
theorem c6_witness :
    (∃ p, (handleSubmit
      { user := some { name := "A", email := "a@x.com", role := none }
        resumeSummary := none, skills := none }
      { age := "", targetRole := "", targetCompany := "", techStack := ""
        workExperiences := "", projects := "", companiesWorked := ""
        resumeText := "my resume", resumeFile := some { name := "r.pdf" }
        loading := false, error := none }
      { uploadResp := { ok := true, status := 200, body := "" }
        uploadResumeText := some "extracted"
        enrichResp := { ok := true, status := 200, body := "" }
        enrichParsed := { user_id := 1, resume_summary := "S", skills := ["Go"] } }).calls
        = [ApiCall.enrich p] ∧ p.resume_text = some "my resume") ∧
    ¬(∃ f, ApiCall.uploadResume f ∈ (handleSubmit
      { user := some { name := "A", email := "a@x.com", role := none }
        resumeSummary := none, skills := none }
      { age := "", targetRole := "", targetCompany := "", techStack := ""
        workExperiences := "", projects := "", companiesWorked := ""
        resumeText := "my resume", resumeFile := some { name := "r.pdf" }
        loading := false, error := none }
      { uploadResp := { ok := true, status := 200, body := "" }
        uploadResumeText := some "extracted"
        enrichResp := { ok := true, status := 200, body := "" }
        enrichParsed := { user_id := 1, resume_summary := "S", skills := ["Go"] } }).calls) := by
  have h := c6_typed_text_precedence
    { user := some { name := "A", email := "a@x.com", role := none }
      resumeSummary := none, skills := none }
    { name := "A", email := "a@x.com", role := none }
    { age := "", targetRole := "", targetCompany := "", techStack := ""
      workExperiences := "", projects := "", companiesWorked := ""
      resumeText := "my resume", resumeFile := some { name := "r.pdf" }
      loading := false, error := none }
    { uploadResp := { ok := true, status := 200, body := "" }
      uploadResumeText := some "extracted"
      enrichResp := { ok := true, status := 200, body := "" }
      enrichParsed := { user_id := 1, resume_summary := "S", skills := ["Go"] } }
    rfl (by decide) (by decide)
  refine ⟨h.1 (by decide), fun hex => ?_⟩
  have := h.2.mp hex
  exact absurd this.2 (by decide)

/-- C7: when the extraction request returns a non-success status the whole
submit fails with the extraction error, the enrich call is never issued,
and no enrichment artifact is stored (auth state unchanged). -/
theorem c7_extraction_failure_blocks_enrich
    (auth : AuthState) (u : User) (form : ProfileForm) (env : SubmitEnv) (f : ResumeFile)
    (hu : auth.user = some u) (he : u.email ≠ "") (hn : u.name ≠ "")
    (hfile : form.resumeFile = some f) (ht : form.resumeText = "")
    (hup : env.uploadResp.ok = false) :
    handleSubmit auth form env =
      { form := { form with loading := false, error := some extractionFailedMsg }
        auth := auth, calls := [ApiCall.uploadResume f], navigatedTo := none } := by
  simp [handleSubmit, hu, he, hn, hfile, ht, hup]

/-- C7 witness: a failed extraction blocks enrichment at a concrete input. -/
theorem c7_witness :
    handleSubmit
      { user := some { name := "A", email := "a@x.com", role := none }
        resumeSummary := some "old", skills := some ["Old"] }
      { age := "", targetRole := "", targetCompany := "", techStack := ""
        workExperiences := "", projects := "", companiesWorked := ""
        resumeText := "", resumeFile := some { name := "r.pdf" }
        loading := false, error := none }
      { uploadResp := { ok := false, status := 422, body := "bad pdf" }
        uploadResumeText := none
        enrichResp := { ok := true, status := 200, body := "" }
        enrichParsed := { user_id := 1, resume_summary := "S", skills := ["Go"] } } =
      { form := { age := "", targetRole := "", targetCompany := "", techStack := ""
                  workExperiences := "", projects := "", companiesWorked := ""
                  resumeText := "", resumeFile := some { name := "r.pdf" }
                  loading := false, error := some extractionFailedMsg }
        auth := { user := some { name := "A", email := "a@x.com", role := none }
                  resumeSummary := some "old", skills := some ["Old"] }
        calls := [ApiCall.uploadResume { name := "r.pdf" }], navigatedTo := none } :=
  c7_extraction_failure_blocks_enrich
    { user := some { name := "A", email := "a@x.com", role := none }
      resumeSummary := some "old", skills := some ["Old"] }
    { name := "A", email := "a@x.com", role := none }
    { age := "", targetRole := "", targetCompany := "", techStack := ""
      workExperiences := "", projects := "", companiesWorked := ""
      resumeText := "", resumeFile := some { name := "r.pdf" }
      loading := false, error := none }
    { uploadResp := { ok := false, status := 422, body := "bad pdf" }
      uploadResumeText := none
      enrichResp := { ok := true, status := 200, body := "" }
      enrichParsed := { user_id := 1, resume_summary := "S", skills := ["Go"] } }
    { name := "r.pdf" }
    rfl (by decide) (by decide) rfl rfl rfl


/-- C8 counterexample: an enrich invocation that fails after a successful
extraction leaves the store untouched and sets the error, but it also
changes the local typed resume text (the extraction wrote "X" into the
visible field) — so "only the local error message is set" is false. -/
theorem c8_counterexample :
    (handleSubmit
      { user := some { name := "A", email := "a@x.com", role := none }
        resumeSummary := some "old", skills := some ["Old"] }
      { age := "", targetRole := "", targetCompany := "", techStack := ""
        workExperiences := "", projects := "", companiesWorked := ""
        resumeText := "", resumeFile := some { name := "r.pdf" }
        loading := false, error := none }
      { uploadResp := { ok := true, status := 200, body := "" }
        uploadResumeText := some "X"
        enrichResp := { ok := false, status := 500, body := "boom" }
        enrichParsed := { user_id := 1, resume_summary := "S", skills := ["Go"] } }).auth
      = { user := some { name := "A", email := "a@x.com", role := none }
          resumeSummary := some "old", skills := some ["Old"] } ∧
    (handleSubmit
      { user := some { name := "A", email := "a@x.com", role := none }
        resumeSummary := some "old", skills := some ["Old"] }
      { age := "", targetRole := "", targetCompany := "", techStack := ""
        workExperiences := "", projects := "", companiesWorked := ""
        resumeText := "", resumeFile := some { name := "r.pdf" }
        loading := false, error := none }
      { uploadResp := { ok := true, status := 200, body := "" }
        uploadResumeText := some "X"
        enrichResp := { ok := false, status := 500, body := "boom" }
        enrichParsed := { user_id := 1, resume_summary := "S", skills := ["Go"] } }).form.error
      = some "boom" ∧
    (handleSubmit
      { user := some { name := "A", email := "a@x.com", role := none }
        resumeSummary := some "old", skills := some ["Old"] }
      { age := "", targetRole := "", targetCompany := "", techStack := ""
        workExperiences := "", projects := "", companiesWorked := ""
        resumeText := "", resumeFile := some { name := "r.pdf" }
        loading := false, error := none }
      { uploadResp := { ok := true, status := 200, body := "" }
        uploadResumeText := some "X"
        enrichResp := { ok := false, status := 500, body := "boom" }
        enrichParsed := { user_id := 1, resume_summary := "S", skills := ["Go"] } }).form.resumeText
      = "X" ∧ ("X" : String) ≠ "" := by
  decide

/-- C8 (amended): for every enrich invocation that fails with a transport
or status error, the store keeps its prior value, no navigation occurs,
the error is the fallback-chain message, and every local field except
the typed resume text (which a preceding successful extraction may have
rewritten) and the loading flag keeps its prior value. -/
theorem c8_enrich_failure_atomic
    (auth : AuthState) (u : User) (form : ProfileForm) (env : SubmitEnv)
    (hu : auth.user = some u) (he : u.email ≠ "") (hn : u.name ≠ "")
    (hext : form.resumeFile = none ∨ form.resumeText ≠ "" ∨ env.uploadResp.ok = true)
    (hfail : env.enrichResp.ok = false) :
    (handleSubmit auth form env).auth = auth ∧
    (handleSubmit auth form env).navigatedTo = none ∧
    (handleSubmit auth form env).form.error
      = some (specFallbackMessage env.enrichResp) ∧
    (handleSubmit auth form env).form.loading = false ∧
    (handleSubmit auth form env).form.age = form.age ∧
    (handleSubmit auth form env).form.targetRole = form.targetRole ∧
    (handleSubmit auth form env).form.targetCompany = form.targetCompany ∧
    (handleSubmit auth form env).form.techStack = form.techStack ∧
    (handleSubmit auth form env).form.workExperiences = form.workExperiences ∧
    (handleSubmit auth form env).form.projects = form.projects ∧
    (handleSubmit auth form env).form.companiesWorked = form.companiesWorked ∧
    (handleSubmit auth form env).form.resumeFile = form.resumeFile := by
  cases hfile : form.resumeFile with
  | none =>
      refine ⟨?_, ?_, ?_, ?_, ?_, ?_, ?_, ?_, ?_, ?_, ?_, ?_⟩ <;>
        simp [handleSubmit, finishSubmit, apiPost, specFallbackMessage, hu, he, hn,
          hfile, hfail]
  | some f =>
      by_cases ht : form.resumeText = ""
      · have hup : env.uploadResp.ok = true := by
          rcases hext with h | h | h
          · rw [hfile] at h; cases h
          · exact absurd ht h
          · exact h
        refine ⟨?_, ?_, ?_, ?_, ?_, ?_, ?_, ?_, ?_, ?_, ?_, ?_⟩ <;>
          simp [handleSubmit, finishSubmit, apiPost, specFallbackMessage, hu, he, hn,
            hfile, ht, hup, hfail]
      · refine ⟨?_, ?_, ?_, ?_, ?_, ?_, ?_, ?_, ?_, ?_, ?_, ?_⟩ <;>
          simp [handleSubmit, finishSubmit, apiPost, specFallbackMessage, hu, he, hn,
            hfile, ht, hfail]

/-- C8 witness: a failed enrich (500, body "boom") with no file present
leaves the store and every local field unchanged except the error. -/
theorem c8_witness :
    (handleSubmit
      { user := some { name := "A", email := "a@x.com", role := none }
        resumeSummary := some "old", skills := some ["Old"] }
      { age := "", targetRole := "", targetCompany := "", techStack := "Go, Rust"
        workExperiences := "", projects := "", companiesWorked := ""
        resumeText := "", resumeFile := none, loading := false, error := none }
      { uploadResp := { ok := true, status := 200, body := "" }
        uploadResumeText := none
        enrichResp := { ok := false, status := 500, body := "boom" }
        enrichParsed := { user_id := 1, resume_summary := "S", skills := ["Go"] } }).auth
      = { user := some { name := "A", email := "a@x.com", role := none }
          resumeSummary := some "old", skills := some ["Old"] } ∧
    (handleSubmit
      { user := some { name := "A", email := "a@x.com", role := none }
        resumeSummary := some "old", skills := some ["Old"] }
      { age := "", targetRole := "", targetCompany := "", techStack := "Go, Rust"
        workExperiences := "", projects := "", companiesWorked := ""
        resumeText := "", resumeFile := none, loading := false, error := none }
      { uploadResp := { ok := true, status := 200, body := "" }
        uploadResumeText := none
        enrichResp := { ok := false, status := 500, body := "boom" }
        enrichParsed := { user_id := 1, resume_summary := "S", skills := ["Go"] } }).form.error
      = some "boom" := by
  have h := c8_enrich_failure_atomic
    { user := some { name := "A", email := "a@x.com", role := none }
      resumeSummary := some "old", skills := some ["Old"] }
    { name := "A", email := "a@x.com", role := none }
    { age := "", targetRole := "", targetCompany := "", techStack := "Go, Rust"
      workExperiences := "", projects := "", companiesWorked := ""
      resumeText := "", resumeFile := none, loading := false, error := none }
    { uploadResp := { ok := true, status := 200, body := "" }
      uploadResumeText := none
      enrichResp := { ok := false, status := 500, body := "boom" }
      enrichParsed := { user_id := 1, resume_summary := "S", skills := ["Go"] } }
    rfl (by decide) (by decide) (Or.inl rfl) rfl
  exact ⟨h.1, h.2.2.1⟩

/-- C10: a start invocation that fails after a previous successful start
keeps the previous session fields (interviewId, question,
conversationUrl) while tavusError was reset to null at the beginning of
the attempt and the error carries the new failure — the stale session is
shown without its original media-channel error. -/
theorem c10_failed_restart_keeps_stale_session
    (auth : AuthState) (u : User) (st : InterviewState) (env : StartEnv)
    (hu : auth.user = some u) (he : u.email ≠ "") (hn : u.name ≠ "")
    (hfail : env.startResp.ok = false) :
    handleStartInterview auth st env =
      { state := { st with loading := false
                           error := some (specFallbackMessage env.startResp)
                           tavusError := none }
        calls := [ApiCall.start (buildStartBody u st auth)] } := by
  simp [handleStartInterview, apiPost, specFallbackMessage, hu, he, hn, hfail]

/-- C10 witness: a failed restart after a session with a media-channel
error: the stale session fields survive, the old tavus error is gone. -/
theorem c10_witness :
    handleStartInterview
      { user := some { name := "A", email := "a@x.com", role := none }
        resumeSummary := some "S", skills := some ["Go"] }
      { interviewId := some 7
        question := some { question_id := 3, text := "Old Q" }
        conversationUrl := some "https://tavus.example/old"
        targetRole := "", loading := false, error := none
        tavusError := some "old channel error" }
      { startResp := { ok := false, status := 502, body := "bad gateway" }
        startParsed := { interview_id := 9
                         question := { question_id := 4, text := "New Q" }
                         conversation_url := none, tavus_error := none } } =
      { state := { interviewId := some 7
                   question := some { question_id := 3, text := "Old Q" }
                   conversationUrl := some "https://tavus.example/old"
                   targetRole := "", loading := false
                   error := some "bad gateway", tavusError := none }
        calls := [ApiCall.start
          { candidate_name := "A", candidate_email := "a@x.com"
            candidate_role := "candidate", candidate_resume_summary := some "S"
            interviewer_id := 1, interview_type := "candidate"
            skills := some ["Go"] }] } :=
  c10_failed_restart_keeps_stale_session
    { user := some { name := "A", email := "a@x.com", role := none }
      resumeSummary := some "S", skills := some ["Go"] }
    { name := "A", email := "a@x.com", role := none }
    { interviewId := some 7
      question := some { question_id := 3, text := "Old Q" }
      conversationUrl := some "https://tavus.example/old"
      targetRole := "", loading := false, error := none
      tavusError := some "old channel error" }
    { startResp := { ok := false, status := 502, body := "bad gateway" }
      startParsed := { interview_id := 9
                       question := { question_id := 4, text := "New Q" }
                       conversation_url := none, tavus_error := none } }
    rfl (by decide) (by decide) rfl

end InterViewDost
